import Mathlib

/-!
Shallow embedding of the interval-based violation scoring and flagging
engine of the AI_Exam_Proctor repository (backend/models/score.py,
backend/app.py, backend/detectors/face_detector.py), together with
theorems settling the specification claims about it.

Modelling conventions: wall-clock times are natural numbers (seconds);
the file system is a list of file identifiers that currently exist on
disk; the cv2 VideoWriter handle is a boolean (present or released);
database calls are external fire-and-forget collaborators and do not
change the in-memory scoring state, except that saving a flagged
interval moves the temporary video file (db.save_flagged_interval), which
we model by removing the file identifier from the file system list.
-/

namespace Proctor

/-- The violation kinds of the SCORES table in ProctoringScoreSystem. -/
inductive VKind where
  | gaze_distracted
  | speech_detected
  | multiple_voices
  | tab_switch
  | copy_paste
  | multiple_faces
  | no_face
deriving DecidableEq

/-- Point weights, from the SCORES dictionary in score.py. -/
def SCORES : VKind → Nat
  | .gaze_distracted => 2
  | .speech_detected => 0
  | .multiple_voices => 10
  | .tab_switch => 4
  | .copy_paste => 5
  | .multiple_faces => 10
  | .no_face => 9

/-- FLAG_THRESHOLD in score.py. -/
def FLAG_THRESHOLD : Nat := 10

/-- INTERVAL_DURATION in score.py (seconds). -/
def INTERVAL_DURATION : Nat := 30

/-- A scored violation event (the type and score keys of the violation
dictionaries built in the analyze methods; timestamps and free-text
details are dropped as they never influence control flow). -/
structure Violation where
  type : VKind
  score : Nat
deriving DecidableEq

/-- A flagged-interval record (flag_data in _check_and_flag_interval). -/
structure Flag where
  interval_start : Nat
  interval_end : Nat
  score : Nat
  violations : List Violation
  flagged_at : Nat
deriving DecidableEq

/-- The mutable state of one ProctoringScoreSystem instance, plus the
file system holding temporary interval recordings. -/
structure ScoreState where
  total_score : Nat
  all_violations : List Violation
  interval_start_time : Option Nat
  interval_score : Nat
  interval_violations : List Violation
  flags : List Flag
  video_writer : Bool
  temp_video_file : Option Nat
  is_recording : Bool
  fs : List Nat
deriving DecidableEq

/-- The state set up by ProctoringScoreSystem.__init__. -/
def initState : ScoreState :=
  { total_score := 0
    all_violations := []
    interval_start_time := none
    interval_score := 0
    interval_violations := []
    flags := []
    video_writer := false
    temp_video_file := none
    is_recording := false
    fs := [] }

/-- _get_severity: severity band derived from a score value. -/
def _get_severity (score : Nat) : String :=
  if score ≥ 9 then "high"
  else if score ≥ 4 then "medium"
  else "low"

/-- _start_new_interval: reset the interval start time, score and
violation list. -/
def _start_new_interval (now : Nat) (s : ScoreState) : ScoreState :=
  { s with interval_start_time := some now
           interval_score := 0
           interval_violations := [] }

/-- _start_video_recording: open a writer on a fresh temporary file
(cv2.VideoWriter creates the file on disk). -/
def _start_video_recording (fileId : Nat) (s : ScoreState) : ScoreState :=
  { s with temp_video_file := some fileId
           fs := fileId :: s.fs
           video_writer := true
           is_recording := true }

/-- _stop_video_recording: release the writer and return the temporary
file path when the file exists on disk, None otherwise. -/
def _stop_video_recording (s : ScoreState) : Option Nat × ScoreState :=
  if s.video_writer then
    let s1 := { s with video_writer := false, is_recording := false }
    match s1.temp_video_file with
    | some f => if s1.fs.contains f then (some f, s1) else (none, s1)
    | none => (none, s1)
  else (none, s)

/-- _check_and_flag_interval: if the interval score has reached
FLAG_THRESHOLD, finalize the recording, append a Flag and rotate the
interval; flagging is skipped when no recording is active or the video
file is missing. The db.save_flagged_interval call moves the temporary
file, modelled by erasing it from the file system. -/
def _check_and_flag_interval (now : Nat) (s : ScoreState) : ScoreState :=
  match s.interval_start_time with
  | none => _start_new_interval now s
  | some t0 =>
    if s.interval_score ≥ FLAG_THRESHOLD then
      if s.is_recording then
        let r := _stop_video_recording s
        match r.1 with
        | none => _start_new_interval now r.2
        | some f =>
          if r.2.fs.contains f then
            let flag : Flag :=
              { interval_start := t0
                interval_end := now
                score := r.2.interval_score
                violations := r.2.interval_violations
                flagged_at := now }
            let s2 := { r.2 with fs := r.2.fs.erase f }
            _start_new_interval now { s2 with flags := s2.flags ++ [flag] }
          else _start_new_interval now r.2
      else s
    else s

/-- Append a violation to both the interval log and the session-wide
log (the repeated pattern in every analyze method). -/
def _record_violation (v : Violation) (s : ScoreState) : ScoreState :=
  { s with all_violations := s.all_violations ++ [v]
           interval_violations := s.interval_violations ++ [v] }

/-- analyze_gaze: a gaze_distracted violation when a face is detected
but not focused, then an immediate flag check. The external
gaze detector output is abstracted to its two boolean fields. -/
def analyze_gaze (face_detected focused : Bool) (now : Nat) (s : ScoreState) : ScoreState :=
  if face_detected && !focused then
    let sc := SCORES .gaze_distracted
    let s1 := { s with total_score := s.total_score + sc
                       interval_score := s.interval_score + sc }
    let s2 := _record_violation { type := .gaze_distracted, score := sc } s1
    _check_and_flag_interval now s2
  else s

/-- The dictionary returned by FaceDetector.detect_faces (bounding
boxes and confidences dropped: they never influence scoring). -/
structure FaceResult where
  num_faces : Nat
  multiple_faces : Bool
  no_face : Bool
deriving DecidableEq

/-- FaceDetector.detect_faces, parameterised by the number of person
boxes the external YOLO model returned for the frame. -/
def detect_faces (n : Nat) : FaceResult :=
  { num_faces := n
    multiple_faces := decide (n > 1)
    no_face := decide (n = 0) }

/-- analyze_faces: score a multiple_faces violation and/or a no_face
violation according to the detector result, then run the flag check
unconditionally. -/
def analyze_faces (n : Nat) (now : Nat) (s : ScoreState) : ScoreState :=
  let result := detect_faces n
  let s1 :=
    if result.multiple_faces then
      let sc := SCORES .multiple_faces
      _record_violation { type := .multiple_faces, score := sc }
        { s with total_score := s.total_score + sc
                 interval_score := s.interval_score + sc }
    else s
  let s2 :=
    if result.no_face then
      let sc := SCORES .no_face
      _record_violation { type := .no_face, score := sc }
        { s1 with total_score := s1.total_score + sc
                  interval_score := s1.interval_score + sc }
    else s1
  _check_and_flag_interval now s2

/-- analyze_audio: a speech_detected violation when any speech frames
were heard, plus a multiple_voices violation when several speakers were
detected; the combined score is added to both totals afterwards and the
flag check runs only when the combined score is positive. -/
def analyze_audio (total_speech_frames : Nat) (multiple_speakers : Bool)
    (now : Nat) (s : ScoreState) : ScoreState :=
  let score :=
    if total_speech_frames > 0 then
      SCORES .speech_detected + (if multiple_speakers then SCORES .multiple_voices else 0)
    else 0
  let s1 :=
    if total_speech_frames > 0 then
      let sA := _record_violation { type := .speech_detected, score := SCORES .speech_detected } s
      if multiple_speakers then
        _record_violation { type := .multiple_voices, score := SCORES .multiple_voices } sA
      else sA
    else s
  let s2 := { s1 with total_score := s1.total_score + score
                      interval_score := s1.interval_score + score }
  if score > 0 then _check_and_flag_interval now s2 else s2

/-- analyze_screen_activity: one tab_switch violation scored by count
times weight and one copy_paste violation likewise; totals updated
afterwards and the flag check runs only when the score is positive. -/
def analyze_screen_activity (tab_switches copy_paste_events : Nat)
    (now : Nat) (s : ScoreState) : ScoreState :=
  let tab_score := if tab_switches > 0 then tab_switches * SCORES .tab_switch else 0
  let cp_score := if copy_paste_events > 0 then copy_paste_events * SCORES .copy_paste else 0
  let score := tab_score + cp_score
  let s1 :=
    if tab_switches > 0 then
      _record_violation { type := .tab_switch, score := tab_switches * SCORES .tab_switch } s
    else s
  let s2 :=
    if copy_paste_events > 0 then
      _record_violation { type := .copy_paste, score := copy_paste_events * SCORES .copy_paste } s1
    else s1
  let s3 := { s2 with total_score := s2.total_score + score
                      interval_score := s2.interval_score + score }
  if score > 0 then _check_and_flag_interval now s3 else s3

/-- A detection signal arriving at the engine, one constructor per
analyze method of ProctoringScoreSystem, carrying the external detector
outputs that drive the scoring decisions. -/
inductive Signal where
  | gaze (face_detected focused : Bool)
  | faces (num_faces : Nat)
  | audio (total_speech_frames : Nat) (multiple_speakers : Bool)
  | screen (tab_switches copy_paste_events : Nat)
deriving DecidableEq

/-- Dispatch a signal to its analyze method. -/
def ingest (sig : Signal) (now : Nat) (s : ScoreState) : ScoreState :=
  match sig with
  | .gaze fd f => analyze_gaze fd f now s
  | .faces n => analyze_faces n now s
  | .audio fr m => analyze_audio fr m now s
  | .screen t c => analyze_screen_activity t c now s

/-- Total points of the violations one signal generates. -/
def signalPoints : Signal → Nat
  | .gaze fd f => if fd && !f then SCORES .gaze_distracted else 0
  | .faces n => (if n > 1 then SCORES .multiple_faces else 0)
      + (if n = 0 then SCORES .no_face else 0)
  | .audio fr m =>
      if fr > 0 then SCORES .speech_detected + (if m then SCORES .multiple_voices else 0) else 0
  | .screen t c => (if t > 0 then t * SCORES .tab_switch else 0)
      + (if c > 0 then c * SCORES .copy_paste else 0)

/-- The interval-expiry check shared verbatim by the monitoring loop of
run_continuous_monitoring (score.py) and by receive_frame (app.py):
when the interval has been open for at least INTERVAL_DURATION, the
recording is stopped and its file removed only when the score is below
FLAG_THRESHOLD, and then a new interval is started in every case. -/
def interval_expiry_check (now : Nat) (s : ScoreState) : ScoreState :=
  match s.interval_start_time with
  | none => s
  | some t0 =>
    if now - t0 ≥ INTERVAL_DURATION then
      let s1 :=
        if s.interval_score < FLAG_THRESHOLD then
          let r := _stop_video_recording s
          match r.1 with
          | some f => if r.2.fs.contains f then { r.2 with fs := r.2.fs.erase f } else r.2
          | none => r.2
        else s
      _start_new_interval now s1
    else s

/-- The screen-statistics flush in the finally block of
run_continuous_monitoring: the final tab-switch and copy-paste counts
are scored and added to both the total and the interval score, with no
violation recorded in either log. -/
def monitoring_final_screen_flush (tab_switches copy_paste_events : Nat)
    (s : ScoreState) : ScoreState :=
  let final_screen_score :=
    tab_switches * SCORES .tab_switch + copy_paste_events * SCORES .copy_paste
  { s with total_score := s.total_score + final_screen_score
           interval_score := s.interval_score + final_screen_score }

/-- reset_score: zero the scores, clear the logs and the flags, drop
the interval start time; recording fields are not touched. -/
def reset_score (s : ScoreState) : ScoreState :=
  { s with total_score := 0
           all_violations := []
           interval_score := 0
           interval_violations := []
           interval_start_time := none
           flags := [] }

/-- One entry of the violation breakdown dictionary built by
_get_violation_breakdown, keyed by violation type (list order mirrors
Python dictionary insertion order). -/
structure BreakdownEntry where
  type : VKind
  count : Nat
  total_score : Nat
deriving DecidableEq

/-- One step of the _get_violation_breakdown loop body. -/
def breakdownAdd (b : List BreakdownEntry) (v : Violation) : List BreakdownEntry :=
  if b.any (fun e => e.type == v.type) then
    b.map (fun e =>
      if e.type == v.type then
        { e with count := e.count + 1, total_score := e.total_score + v.score }
      else e)
  else b ++ [{ type := v.type, count := 1, total_score := v.score }]

/-- _get_violation_breakdown: per-type count and cumulative score. -/
def _get_violation_breakdown (vs : List Violation) : List BreakdownEntry :=
  vs.foldl breakdownAdd []

/-- The report dictionary built by generate_report. -/
structure Report where
  total_score : Nat
  total_violations : Nat
  violations : List Violation
  violation_breakdown : List BreakdownEntry
  interval_duration : Nat
  flag_threshold : Nat
  flagged_intervals : List Flag
  num_flagged_intervals : Nat
  overall_status : String
  timestamp : Nat
deriving DecidableEq

/-- generate_report: aggregate the session logs into a report; the
method reads the state and assigns no attribute, which the embedding
records by returning the state unchanged alongside the report. The
timestamp field is datetime.now() at the moment of the call. -/
def generate_report (now : Nat) (s : ScoreState) : Report × ScoreState :=
  ({ total_score := s.total_score
     total_violations := s.all_violations.length
     violations := s.all_violations
     violation_breakdown := _get_violation_breakdown s.all_violations
     interval_duration := INTERVAL_DURATION
     flag_threshold := FLAG_THRESHOLD
     flagged_intervals := s.flags
     num_flagged_intervals := s.flags.length
     overall_status := if s.flags.length > 0 then "FLAGGED" else "CLEAR"
     timestamp := now }, s)

/-- Every report field except the generated-at timestamp. -/
def reportCore (r : Report) :
    Nat × Nat × List Violation × List BreakdownEntry × Nat × Nat × List Flag × Nat × String :=
  (r.total_score, r.total_violations, r.violations, r.violation_breakdown,
   r.interval_duration, r.flag_threshold, r.flagged_intervals,
   r.num_flagged_intervals, r.overall_status)

/-- A SessionMonitor from app.py: one scorer instance plus the running
flag, keyed in the active_sessions table. -/
structure SessionMonitor where
  user_id : String
  exam_id : String
  session_id : String
  is_running : Bool
  scorer : ScoreState
deriving DecidableEq

/-- The active_sessions table of app.py: session-key / monitor pairs. -/
abbrev Sessions : Type := List (String × SessionMonitor)

/-- The scoring-relevant content of one POST body to the frame
endpoint: whether a frame field was present and decodable, the
detector outputs for the frame, and the client screen-activity
counters. -/
structure FrameInput where
  hasFrame : Bool
  frameValid : Bool
  face_detected : Bool
  focused : Bool
  num_faces : Nat
  tabSwitches : Nat
  copyPasteEvents : Nat
deriving DecidableEq

/-- The distinct response shapes receive_frame can return. The first
two carry a body with an error key; sessionEnding and processed carry
success bodies. -/
inductive FrameResponse where
  | missingFrame
  | invalidFrame
  | sessionNotFound
  | sessionEnding
  | processed (interval_score total_score : Nat)
deriving DecidableEq

/-- Whether the response body of receive_frame is an error body (its
JSON has an error key rather than success). -/
def FrameResponse.isError : FrameResponse → Bool
  | .missingFrame => true
  | .invalidFrame => true
  | .sessionNotFound => true
  | .sessionEnding => false
  | .processed _ _ => false

/-- receive_frame (app.py): look the session up by session_id over the
active_sessions values; missing session and not-running early returns
precede any scoring; otherwise run analyze_gaze and analyze_faces,
lazily start a recording, then run the interval-expiry check, and
answer with the current interval and total scores. freshFile stands
for the temporary file name a newly started recording would use. -/
def receive_frame (sessions : Sessions) (sid : String) (inp : FrameInput)
    (now : Nat) (freshFile : Nat) : FrameResponse × Sessions :=
  if !inp.hasFrame then (.missingFrame, sessions)
  else
    match sessions.find? (fun kv => kv.2.session_id == sid) with
    | none => (.sessionNotFound, sessions)
    | some (key, mon) =>
      if !mon.is_running then (.sessionEnding, sessions)
      else if !inp.frameValid then (.invalidFrame, sessions)
      else
        let sc0 := mon.scorer
        let sc1 := analyze_gaze inp.face_detected inp.focused now sc0
        let sc2 := analyze_faces inp.num_faces now sc1
        let sc3 :=
          if sc2.video_writer then sc2
          else if !sc2.is_recording then _start_video_recording freshFile sc2
          else sc2
        let sc4 := interval_expiry_check now sc3
        let mon4 := { mon with scorer := sc4 }
        (.processed sc4.interval_score sc4.total_score,
         sessions.map (fun kv => if kv.1 == key then (kv.1, mon4) else kv))

/-- The response shapes of the end-session endpoint. -/
inductive EndResponse where
  | sessionNotFound
  | ended
deriving DecidableEq

/-- end_session (app.py): look the monitor up under the user-exam key;
when present, stop it and delete it from the active-sessions table, so
later frame posts for that session no longer find it. -/
def end_session (sessions : Sessions) (user_id exam_id : String) :
    EndResponse × Sessions :=
  let key := user_id ++ "_" ++ exam_id
  if sessions.any (fun kv => kv.1 == key) then
    (.ended, sessions.filter (fun kv => kv.1 != key))
  else (.sessionNotFound, sessions)

/-- Sum of the point values of a list of violations. -/
def sumPoints (vs : List Violation) : Nat := (vs.map Violation.score).sum

/-- The scoring invariant of the spec: the session total equals the
points of the session-wide log and the interval score equals the
points of the interval log. -/
def scoreInv (s : ScoreState) : Prop :=
  s.total_score = sumPoints s.all_violations
  ∧ s.interval_score = sumPoints s.interval_violations

/-- A recording is active and its temporary file is on disk: the
condition under which the flag check can actually produce a Flag. -/
def recordingGood (s : ScoreState) : Bool :=
  s.is_recording && s.video_writer &&
    (match s.temp_video_file with
     | some f => s.fs.contains f
     | none => false)

/-- The operations of ProctoringScoreSystem that touch the scoring
state during a session: signal ingestion, the expiry check, the flag
check, interval rotation and the score reset. -/
inductive ScoreOp where
  | signal (sig : Signal)
  | expiry
  | flagCheck
  | newInterval
  | reset
deriving DecidableEq

/-- Apply one scoring operation at wall-clock time now. -/
def applyScoreOp (op : ScoreOp) (now : Nat) (s : ScoreState) : ScoreState :=
  match op with
  | .signal sig => ingest sig now s
  | .expiry => interval_expiry_check now s
  | .flagCheck => _check_and_flag_interval now s
  | .newInterval => _start_new_interval now s
  | .reset => reset_score s

/-- The violations one signal generates, in the order the analyze
methods record them. -/
def signalViolations : Signal → List Violation
  | .gaze fd f =>
      if fd && !f then [{ type := .gaze_distracted, score := SCORES .gaze_distracted }] else []
  | .faces n =>
      (if n > 1 then [{ type := .multiple_faces, score := SCORES .multiple_faces }] else [])
      ++ (if n = 0 then [{ type := .no_face, score := SCORES .no_face }] else [])
  | .audio fr m =>
      if fr > 0 then
        { type := .speech_detected, score := SCORES .speech_detected } ::
          (if m then [{ type := .multiple_voices, score := SCORES .multiple_voices }] else [])
      else []
  | .screen t c =>
      (if t > 0 then [{ type := .tab_switch, score := t * SCORES .tab_switch }] else [])
      ++ (if c > 0 then [{ type := .copy_paste, score := c * SCORES .copy_paste }] else [])

/-- The net effect of one signal on the scoring state before the flag
check runs: both scores grow by the signal points and both logs grow
by the signal violations. -/
def applySignal (sig : Signal) (s : ScoreState) : ScoreState :=
  { s with total_score := s.total_score + signalPoints sig
           interval_score := s.interval_score + signalPoints sig
           all_violations := s.all_violations ++ signalViolations sig
           interval_violations := s.interval_violations ++ signalViolations sig }

/-- Whether the analyze method for this signal reaches its
_check_and_flag_interval call: always for a face signal, and only for
a positive score otherwise. -/
def runsFlagCheck : Signal → Bool
  | .faces _ => true
  | sig => decide (0 < signalPoints sig)

/-- A state with an open interval and a live recording whose file 7 is
on disk, as produced by _start_new_interval and
_start_video_recording after a session starts. -/
def sOpenRec : ScoreState :=
  { initState with interval_start_time := some 0
                   video_writer := true
                   is_recording := true
                   temp_video_file := some 7
                   fs := [7] }

/-- A state whose interval score has reached the threshold while no
recording is active, as arises in receive_frame when the first frame
of a session carries a violation before any recording has started. -/
def sHotNoRec : ScoreState :=
  { initState with interval_start_time := some 0
                   interval_score := FLAG_THRESHOLD
                   interval_violations := [{ type := .multiple_faces, score := 10 }] }

/-- A recording state whose interval score is above the threshold. -/
def sHotRec : ScoreState :=
  { sOpenRec with interval_score := 12
                  interval_violations :=
                    [{ type := .multiple_faces, score := 10 },
                     { type := .gaze_distracted, score := 2 }] }

/-- A recording state with a small non-zero interval score. -/
def sLowRec : ScoreState :=
  { sOpenRec with interval_score := 2
                  interval_violations := [{ type := .gaze_distracted, score := 2 }] }

/-- A running monitor for session identifier sidA. -/
def monA : SessionMonitor :=
  { user_id := "u", exam_id := "e", session_id := "sidA",
    is_running := true, scorer := initState }

/-- The same monitor after its stop method set is_running to false. -/
def monStopped : SessionMonitor := { monA with is_running := false }

/-- A well-formed frame input with one focused face. -/
def inpA : FrameInput :=
  { hasFrame := true, frameValid := true, face_detected := true,
    focused := true, num_faces := 1, tabSwitches := 0, copyPasteEvents := 0 }

theorem sumPoints_append (vs ws : List Violation) :
    sumPoints (vs ++ ws) = sumPoints vs + sumPoints ws := by
  simp [sumPoints]

/-- The scoring invariant is decidable, so it can be evaluated on
concrete states. -/
instance (s : ScoreState) : Decidable (scoreInv s) := by
  unfold scoreInv; infer_instance

/-- _stop_video_recording releases the writer and changes nothing
else in the state. -/
theorem stop_video_snd (s : ScoreState) :
    (_stop_video_recording s).2 =
      if s.video_writer then { s with video_writer := false, is_recording := false }
      else s := by
  unfold _stop_video_recording
  split
  · dsimp only
    split <;> (try split) <;> rfl
  · rfl

/-- _stop_video_recording returns a file exactly when the writer was
open on an existing temporary file. -/
theorem stop_video_fst_some (s : ScoreState) (f : Nat) :
    (_stop_video_recording s).1 = some f ↔
      s.video_writer = true ∧ s.temp_video_file = some f ∧ s.fs.contains f = true := by
  unfold _stop_video_recording
  split
  · dsimp only
    split
    · split <;> simp_all <;> (rintro rfl; simp_all)
    · simp_all
  · simp_all

@[simp] theorem stop_video_all_violations (s : ScoreState) :
    (_stop_video_recording s).2.all_violations = s.all_violations := by
  rw [stop_video_snd]; split <;> rfl

@[simp] theorem stop_video_total_score (s : ScoreState) :
    (_stop_video_recording s).2.total_score = s.total_score := by
  rw [stop_video_snd]; split <;> rfl

@[simp] theorem stop_video_interval_score (s : ScoreState) :
    (_stop_video_recording s).2.interval_score = s.interval_score := by
  rw [stop_video_snd]; split <;> rfl

@[simp] theorem stop_video_interval_violations (s : ScoreState) :
    (_stop_video_recording s).2.interval_violations = s.interval_violations := by
  rw [stop_video_snd]; split <;> rfl

@[simp] theorem stop_video_flags (s : ScoreState) :
    (_stop_video_recording s).2.flags = s.flags := by
  rw [stop_video_snd]; split <;> rfl

@[simp] theorem stop_video_start_time (s : ScoreState) :
    (_stop_video_recording s).2.interval_start_time = s.interval_start_time := by
  rw [stop_video_snd]; split <;> rfl

@[simp] theorem stop_video_fs (s : ScoreState) :
    (_stop_video_recording s).2.fs = s.fs := by
  rw [stop_video_snd]; split <;> rfl

@[simp] theorem stop_video_temp_file (s : ScoreState) :
    (_stop_video_recording s).2.temp_video_file = s.temp_video_file := by
  rw [stop_video_snd]; split <;> rfl

/-- The flag check never touches the session-wide log or the session
total score. -/
theorem check_flag_keeps_session_log (now : Nat) (s : ScoreState) :
    (_check_and_flag_interval now s).all_violations = s.all_violations
  ∧ (_check_and_flag_interval now s).total_score = s.total_score := by
  unfold _check_and_flag_interval _start_new_interval
  split
  · exact ⟨rfl, rfl⟩
  · split
    · split
      · dsimp only
        split
        · simp
        · split <;> simp
      · exact ⟨rfl, rfl⟩
    · exact ⟨rfl, rfl⟩

/-- The flag check either rotates the interval (fresh score and log)
or leaves the interval fields unchanged. -/
theorem check_flag_interval_fields (now : Nat) (s : ScoreState) :
    ((_check_and_flag_interval now s).interval_score = 0
      ∧ (_check_and_flag_interval now s).interval_violations = [])
  ∨ ((_check_and_flag_interval now s).interval_score = s.interval_score
      ∧ (_check_and_flag_interval now s).interval_violations = s.interval_violations) := by
  unfold _check_and_flag_interval _start_new_interval
  split
  · left; exact ⟨rfl, rfl⟩
  · split
    · split
      · dsimp only
        split
        · left; exact ⟨rfl, rfl⟩
        · split <;> (left; exact ⟨rfl, rfl⟩)
      · right; exact ⟨rfl, rfl⟩
    · right; exact ⟨rfl, rfl⟩

/-- When the threshold is reached and a recording with an on-disk file
is active, the flag check appends exactly the flag record of the
current interval, rotates the interval, releases the writer and moves
the file off the temporary location. -/
theorem check_flag_of_good (now t0 : Nat) (f : Nat) (s : ScoreState)
    (hst : s.interval_start_time = some t0)
    (hth : s.interval_score ≥ FLAG_THRESHOLD)
    (hrec : s.is_recording = true)
    (hwr : s.video_writer = true)
    (htemp : s.temp_video_file = some f)
    (hcont : s.fs.contains f = true) :
    _check_and_flag_interval now s =
      { s with interval_start_time := some now
               interval_score := 0
               interval_violations := []
               video_writer := false
               is_recording := false
               fs := s.fs.erase f
               flags := s.flags ++
                 [{ interval_start := t0, interval_end := now,
                    score := s.interval_score,
                    violations := s.interval_violations, flagged_at := now }] } := by
  have hmem : f ∈ s.fs := by simpa using hcont
  unfold _check_and_flag_interval _start_new_interval
  rw [hst]
  dsimp only
  rw [if_pos hth, if_pos hrec]
  rw [show (_stop_video_recording s).1 = some f from
    (stop_video_fst_some s f).mpr ⟨hwr, htemp, hcont⟩]
  dsimp only
  rw [stop_video_snd, if_pos hwr]
  simp [hcont, hmem]

/-- When the threshold is not reached, or no usable recording is
active, the flag check appends no flag. -/
theorem check_flag_no_flag (now : Nat) (s : ScoreState)
    (h : ¬(FLAG_THRESHOLD ≤ s.interval_score ∧ recordingGood s = true)) :
    (_check_and_flag_interval now s).flags = s.flags := by
  unfold _check_and_flag_interval _start_new_interval
  split
  · rfl
  · split
    · rename_i t0 hst hth
      have hgood : ¬recordingGood s = true := fun hg => h ⟨hth, hg⟩
      split
      · rename_i hrec
        dsimp only
        split
        · simp
        · rename_i f heq
          obtain ⟨hwr, htemp, hcont⟩ := (stop_video_fst_some s f).mp heq
          exact absurd (by unfold recordingGood; rw [hrec, hwr, htemp]; simpa using hcont) hgood
      · rfl
    · rfl

/-- The expiry check never appends a Flag and never touches the
session-wide log or total. -/
theorem expiry_keeps_flags_and_log (now : Nat) (s : ScoreState) :
    (interval_expiry_check now s).flags = s.flags
  ∧ (interval_expiry_check now s).all_violations = s.all_violations
  ∧ (interval_expiry_check now s).total_score = s.total_score := by
  unfold interval_expiry_check _start_new_interval
  split
  · exact ⟨rfl, rfl, rfl⟩
  · split
    · dsimp only
      split
      · split
        · split <;> simp
        · simp
      · exact ⟨rfl, rfl, rfl⟩
    · exact ⟨rfl, rfl, rfl⟩

/-- The expiry check either leaves the state unchanged or rotates the
interval. -/
theorem expiry_cases (now : Nat) (s : ScoreState) :
    interval_expiry_check now s = s
  ∨ ((interval_expiry_check now s).interval_score = 0
     ∧ (interval_expiry_check now s).interval_violations = []
     ∧ (interval_expiry_check now s).interval_start_time = some now) := by
  unfold interval_expiry_check _start_new_interval
  split
  · left; rfl
  · split
    · right; exact ⟨rfl, rfl, rfl⟩
    · left; rfl

/-- Natural expiry of an under-threshold interval with a live
recording: the recording is stopped and its file removed, no flag is
created, and a fresh interval opens. -/
theorem expiry_discards_clean_interval (now t0 f : Nat) (s : ScoreState)
    (hst : s.interval_start_time = some t0)
    (helapsed : now - t0 ≥ INTERVAL_DURATION)
    (hlow : s.interval_score < FLAG_THRESHOLD)
    (hwr : s.video_writer = true)
    (htemp : s.temp_video_file = some f)
    (hcont : s.fs.contains f = true) :
    interval_expiry_check now s =
      { s with interval_start_time := some now
               interval_score := 0
               interval_violations := []
               video_writer := false
               is_recording := false
               fs := s.fs.erase f } := by
  have hmem : f ∈ s.fs := by simpa using hcont
  unfold interval_expiry_check _start_new_interval
  rw [hst]
  dsimp only
  rw [if_pos helapsed, if_pos hlow]
  rw [show (_stop_video_recording s).1 = some f from
    (stop_video_fst_some s f).mpr ⟨hwr, htemp, hcont⟩]
  dsimp only
  rw [stop_video_snd, if_pos hwr]
  simp [hcont, hmem]

/-- Expiry of an interval whose score is at or above the threshold:
the recording is untouched, no flag is created, but the interval is
still rotated, dropping its score and violations. -/
theorem expiry_rotates_over_threshold (now t0 : Nat) (s : ScoreState)
    (hst : s.interval_start_time = some t0)
    (helapsed : now - t0 ≥ INTERVAL_DURATION)
    (hhigh : FLAG_THRESHOLD ≤ s.interval_score) :
    interval_expiry_check now s =
      { s with interval_start_time := some now
               interval_score := 0
               interval_violations := [] } := by
  unfold interval_expiry_check _start_new_interval
  rw [hst]
  dsimp only
  rw [if_pos helapsed, if_neg (by omega)]

/-- The violations of one signal are worth exactly its points. -/
theorem sumPoints_signalViolations (sig : Signal) :
    sumPoints (signalViolations sig) = signalPoints sig := by
  cases sig with
  | gaze fd f =>
    cases fd <;> cases f <;> simp [signalViolations, signalPoints, sumPoints, SCORES]
  | faces n =>
    by_cases h1 : 1 < n <;> by_cases h0 : n = 0 <;>
      simp [signalViolations, signalPoints, sumPoints, SCORES, h1, h0]
  | audio fr m =>
    by_cases hfr : 0 < fr <;> cases m <;>
      simp [signalViolations, signalPoints, sumPoints, SCORES, hfr]
  | screen t c =>
    by_cases ht : 0 < t <;> by_cases hc : 0 < c <;>
      simp [signalViolations, signalPoints, sumPoints, SCORES, ht, hc]

/-- Every analyze method equals: apply the signal violations and
points, then run the flag check when the method reaches it. -/
theorem ingest_eq (sig : Signal) (now : Nat) (s : ScoreState) :
    ingest sig now s =
      if runsFlagCheck sig then _check_and_flag_interval now (applySignal sig s)
      else applySignal sig s := by
  cases sig with
  | gaze fd f =>
    by_cases hc : (fd && !f) = true <;>
      simp [ingest, analyze_gaze, runsFlagCheck, applySignal, signalPoints, signalViolations,
            _record_violation, hc, SCORES]
  | faces n =>
    by_cases h0 : n = 0
    · simp [ingest, analyze_faces, detect_faces, runsFlagCheck, applySignal, signalPoints,
            signalViolations, _record_violation, h0, SCORES]
    · by_cases h1 : n > 1 <;>
        simp [ingest, analyze_faces, detect_faces, runsFlagCheck, applySignal, signalPoints,
              signalViolations, _record_violation, h0, h1, SCORES]
  | audio fr m =>
    by_cases hfr : fr > 0
    · by_cases hm : m = true <;>
        simp [ingest, analyze_audio, runsFlagCheck, applySignal, signalPoints,
              signalViolations, _record_violation, hfr, hm, SCORES]
    · simp [ingest, analyze_audio, runsFlagCheck, applySignal, signalPoints,
            signalViolations, _record_violation, hfr, SCORES]
  | screen t c =>
    by_cases ht : t > 0 <;> by_cases hc : c > 0 <;>
      simp [ingest, analyze_screen_activity, runsFlagCheck, applySignal, signalPoints,
            signalViolations, _record_violation, ht, hc, SCORES]

/-- A signal with positive points always reaches the flag check. -/
theorem runsFlagCheck_of_pos (sig : Signal) (h : 0 < signalPoints sig) :
    runsFlagCheck sig = true := by
  cases sig with
  | faces n => rfl
  | gaze fd f => simpa [runsFlagCheck] using h
  | audio fr m => simpa [runsFlagCheck] using h
  | screen t c => simpa [runsFlagCheck] using h

/-- Unpack a true recordingGood flag into its components. -/
theorem recordingGood_spec (s : ScoreState) (h : recordingGood s = true) :
    s.is_recording = true ∧ s.video_writer = true ∧
      ∃ f, s.temp_video_file = some f ∧ s.fs.contains f = true := by
  unfold recordingGood at h
  rcases ht : s.temp_video_file with _ | f <;> rw [ht] at h <;> simp at h
  exact ⟨h.1.1, h.1.2, f, rfl, by simpa using h.2⟩

/-- Applying a signal preserves the scoring invariant. -/
theorem scoreInv_applySignal (sig : Signal) (s : ScoreState) (h : scoreInv s) :
    scoreInv (applySignal sig s) := by
  refine ⟨?_, ?_⟩
  · show s.total_score + signalPoints sig = sumPoints (s.all_violations ++ signalViolations sig)
    rw [sumPoints_append, sumPoints_signalViolations, h.1]
  · show s.interval_score + signalPoints sig
        = sumPoints (s.interval_violations ++ signalViolations sig)
    rw [sumPoints_append, sumPoints_signalViolations, h.2]

/-- The flag check preserves the scoring invariant. -/
theorem scoreInv_check_flag (now : Nat) (s : ScoreState) (h : scoreInv s) :
    scoreInv (_check_and_flag_interval now s) := by
  obtain ⟨h1, h2⟩ := check_flag_keeps_session_log now s
  rcases check_flag_interval_fields now s with ⟨h3, h4⟩ | ⟨h3, h4⟩
  · exact ⟨by rw [h2, h1]; exact h.1, by rw [h3, h4]; rfl⟩
  · exact ⟨by rw [h2, h1]; exact h.1, by rw [h3, h4]; exact h.2⟩

/-- The expiry check preserves the scoring invariant. -/
theorem scoreInv_expiry (now : Nat) (s : ScoreState) (h : scoreInv s) :
    scoreInv (interval_expiry_check now s) := by
  obtain ⟨-, h1, h2⟩ := expiry_keeps_flags_and_log now s
  rcases expiry_cases now s with heq | ⟨h3, h4, -⟩
  · rwa [heq]
  · exact ⟨by rw [h2, h1]; exact h.1, by rw [h3, h4]; rfl⟩

/-- Ingesting a signal preserves the scoring invariant. -/
theorem scoreInv_ingest (sig : Signal) (now : Nat) (s : ScoreState) (h : scoreInv s) :
    scoreInv (ingest sig now s) := by
  rw [ingest_eq]
  split
  · exact scoreInv_check_flag now _ (scoreInv_applySignal sig s h)
  · exact scoreInv_applySignal sig s h

/-- C1 (amended): across every signal ingestion, flag check, expiry
check, interval rotation and score reset, the interval score stays
equal to the sum of the points of the interval violations and the
session total stays equal to the sum of the points of the session-wide
violation log. The final screen flush of run_continuous_monitoring is
the one operation that breaks this, see the counterexample. -/
theorem c1_scores_equal_sum_of_violations (op : ScoreOp) (now : Nat) (s : ScoreState)
    (h : scoreInv s) : scoreInv (applyScoreOp op now s) := by
  cases op with
  | signal sig => exact scoreInv_ingest sig now s h
  | expiry => exact scoreInv_expiry now s h
  | flagCheck => exact scoreInv_check_flag now s h
  | newInterval => exact ⟨h.1, rfl⟩
  | reset => exact ⟨rfl, rfl⟩

/-- Witness for C1 on a concrete state and operation. -/
theorem c1_scores_equal_sum_of_violations_witness :
    scoreInv initState ∧ scoreInv (applyScoreOp (.signal (.faces 0)) 3 initState) :=
  ⟨by decide, c1_scores_equal_sum_of_violations (.signal (.faces 0)) 3 initState (by decide)⟩

/-- C1 counterexample: the final screen-statistics flush of
run_continuous_monitoring adds one tab-switch worth of points to the
total score without recording any violation, so afterwards the total
score (4) differs from the summed points of the violation log (0). -/
theorem c1_counterexample :
    scoreInv initState
  ∧ ¬ scoreInv (monitoring_final_screen_flush 1 0 initState)
  ∧ (monitoring_final_screen_flush 1 0 initState).total_score = 4
  ∧ sumPoints (monitoring_final_screen_flush 1 0 initState).all_violations = 0 := by
  decide

/-- C2 (amended): with an open interval, the flag check appends
exactly one Flag, carrying the interval data, precisely when the score
has reached FLAG_THRESHOLD and a recording with an on-disk file is
active; in every other situation it appends nothing, and the expiry
check never appends a Flag, so an interval whose score stays below the
threshold never yields one, while an interval that reaches the
threshold without a usable recording can end unflagged. -/
theorem c2_flag_iff_threshold_and_recording (now t0 : Nat) (s : ScoreState)
    (hst : s.interval_start_time = some t0) :
    (FLAG_THRESHOLD ≤ s.interval_score ∧ recordingGood s = true →
      (_check_and_flag_interval now s).flags =
        s.flags ++ [{ interval_start := t0, interval_end := now,
                      score := s.interval_score,
                      violations := s.interval_violations, flagged_at := now }])
  ∧ (¬(FLAG_THRESHOLD ≤ s.interval_score ∧ recordingGood s = true) →
      (_check_and_flag_interval now s).flags = s.flags)
  ∧ (interval_expiry_check now s).flags = s.flags := by
  refine ⟨fun hg => ?_, fun h => check_flag_no_flag now s h,
          (expiry_keeps_flags_and_log now s).1⟩
  obtain ⟨hrec, hwr, f, htemp, hcont⟩ := recordingGood_spec s hg.2
  rw [check_flag_of_good now t0 f s hst hg.1 hrec hwr htemp hcont]

/-- Witness for C2: the flag branch on a concrete over-threshold
recording state. -/
theorem c2_flag_iff_threshold_and_recording_witness :
    (_check_and_flag_interval 5 sHotRec).flags =
      [{ interval_start := 0, interval_end := 5, score := 12,
         violations := [{ type := .multiple_faces, score := 10 },
                        { type := .gaze_distracted, score := 2 }],
         flagged_at := 5 }] :=
  (c2_flag_iff_threshold_and_recording 5 0 sHotRec rfl).1 (by decide)

/-- C2 counterexample: a state whose interval score has reached the
threshold while no recording is active; the flag check leaves the
state untouched, and the expiry check then rotates the interval away,
so the interval ends its lifetime with no Flag ever created. -/
theorem c2_counterexample :
    FLAG_THRESHOLD ≤ sHotNoRec.interval_score
  ∧ _check_and_flag_interval 5 sHotNoRec = sHotNoRec
  ∧ (interval_expiry_check 30 sHotNoRec).flags = []
  ∧ (interval_expiry_check 30 sHotNoRec).interval_start_time = some 30
  ∧ (interval_expiry_check 30 sHotNoRec).interval_score = 0 := by
  decide

/-- C3 (amended): a signal whose violations push the interval score
from below FLAG_THRESHOLD to at or above it triggers a Flag within the
same ingest call and opens a fresh interval, provided a recording with
an on-disk file is active; without such a recording the flag check
returns without flagging (see the counterexample). -/
theorem c3_immediate_flag_within_ingest (sig : Signal) (now t0 : Nat) (s : ScoreState)
    (hst : s.interval_start_time = some t0)
    (hlow : s.interval_score < FLAG_THRESHOLD)
    (hpush : FLAG_THRESHOLD ≤ s.interval_score + signalPoints sig)
    (hgood : recordingGood s = true) :
    (ingest sig now s).flags =
      s.flags ++ [{ interval_start := t0, interval_end := now,
                    score := s.interval_score + signalPoints sig,
                    violations := s.interval_violations ++ signalViolations sig,
                    flagged_at := now }]
  ∧ (ingest sig now s).interval_score = 0
  ∧ (ingest sig now s).interval_violations = []
  ∧ (ingest sig now s).interval_start_time = some now := by
  have hpos : 0 < signalPoints sig := by omega
  obtain ⟨hrec, hwr, f, htemp, hcont⟩ := recordingGood_spec s hgood
  rw [ingest_eq, if_pos (runsFlagCheck_of_pos sig hpos)]
  rw [check_flag_of_good now t0 f (applySignal sig s) hst hpush hrec hwr htemp hcont]
  exact ⟨rfl, rfl, rfl, rfl⟩

/-- Witness for C3: a multiple-faces signal worth 10 points flags a
fresh recording interval immediately. -/
theorem c3_immediate_flag_within_ingest_witness :
    (ingest (.faces 2) 4 sOpenRec).flags =
      [{ interval_start := 0, interval_end := 4, score := 10,
         violations := [{ type := .multiple_faces, score := 10 }], flagged_at := 4 }]
  ∧ (ingest (.faces 2) 4 sOpenRec).interval_score = 0 := by
  obtain ⟨h1, h2, -, -⟩ :=
    c3_immediate_flag_within_ingest (.faces 2) 4 0 sOpenRec rfl (by decide) (by decide)
      (by decide)
  exact ⟨h1, h2⟩

/-- C3 counterexample: the same threshold-crossing signal on an open
interval with no active recording produces no Flag and leaves the
over-threshold interval open, refuting the claim as stated. -/
theorem c3_counterexample :
    (ingest (.faces 2) 1
      { initState with interval_start_time := some 0, interval_score := 5 }).flags = []
  ∧ (ingest (.faces 2) 1
      { initState with interval_start_time := some 0, interval_score := 5 }).interval_score = 15
  ∧ (ingest (.faces 2) 1
      { initState with interval_start_time := some 0, interval_score := 5 }).interval_start_time
      = some 0 := by
  decide

/-- C4: an interval open for at least INTERVAL_DURATION with score
strictly below FLAG_THRESHOLD is discarded by the expiry check: no
Flag is created, the recording is stopped and its file deleted, and a
new interval opens with score 0 and an empty violation list. -/
theorem c4_natural_expiry_discards (now t0 f : Nat) (s : ScoreState)
    (hst : s.interval_start_time = some t0)
    (helapsed : now - t0 ≥ INTERVAL_DURATION)
    (hlow : s.interval_score < FLAG_THRESHOLD)
    (hwr : s.video_writer = true)
    (htemp : s.temp_video_file = some f)
    (hcont : s.fs.contains f = true) :
    (interval_expiry_check now s).flags = s.flags
  ∧ (interval_expiry_check now s).video_writer = false
  ∧ (interval_expiry_check now s).is_recording = false
  ∧ (interval_expiry_check now s).fs = s.fs.erase f
  ∧ (interval_expiry_check now s).interval_start_time = some now
  ∧ (interval_expiry_check now s).interval_score = 0
  ∧ (interval_expiry_check now s).interval_violations = [] := by
  rw [expiry_discards_clean_interval now t0 f s hst helapsed hlow hwr htemp hcont]
  exact ⟨rfl, rfl, rfl, rfl, rfl, rfl, rfl⟩

/-- Witness for C4 on a concrete low-score recording state. -/
theorem c4_natural_expiry_discards_witness :
    (interval_expiry_check 31 sLowRec).flags = []
  ∧ (interval_expiry_check 31 sLowRec).video_writer = false
  ∧ (interval_expiry_check 31 sLowRec).fs = []
  ∧ (interval_expiry_check 31 sLowRec).interval_score = 0 := by
  obtain ⟨h1, h2, -, h4, -, h6, -⟩ :=
    c4_natural_expiry_discards 31 0 7 sLowRec rfl (by decide) (by decide) rfl rfl (by decide)
  exact ⟨h1, h2, h4, h6⟩

/-- C5 (amended): when the interval duration has elapsed and the score
is at or above FLAG_THRESHOLD, the expiry check leaves the recording
untouched (no stop, no file removal) but still rotates: it opens a new
interval, resetting the score and violations of the over-threshold
interval without creating a Flag. The claim that it takes no action at
all is refuted by the counterexample. -/
theorem c5_expiry_over_threshold_rotates (now t0 : Nat) (s : ScoreState)
    (hst : s.interval_start_time = some t0)
    (helapsed : now - t0 ≥ INTERVAL_DURATION)
    (hhigh : FLAG_THRESHOLD ≤ s.interval_score) :
    (interval_expiry_check now s).flags = s.flags
  ∧ (interval_expiry_check now s).video_writer = s.video_writer
  ∧ (interval_expiry_check now s).is_recording = s.is_recording
  ∧ (interval_expiry_check now s).temp_video_file = s.temp_video_file
  ∧ (interval_expiry_check now s).fs = s.fs
  ∧ (interval_expiry_check now s).interval_start_time = some now
  ∧ (interval_expiry_check now s).interval_score = 0
  ∧ (interval_expiry_check now s).interval_violations = [] := by
  rw [expiry_rotates_over_threshold now t0 s hst helapsed hhigh]
  exact ⟨rfl, rfl, rfl, rfl, rfl, rfl, rfl, rfl⟩

/-- Witness for C5 on a concrete over-threshold recording state. -/
theorem c5_expiry_over_threshold_rotates_witness :
    (interval_expiry_check 30 sHotRec).flags = []
  ∧ (interval_expiry_check 30 sHotRec).is_recording = true
  ∧ (interval_expiry_check 30 sHotRec).interval_score = 0 := by
  obtain ⟨h1, -, h3, -, -, -, h7, -⟩ :=
    c5_expiry_over_threshold_rotates 30 0 sHotRec rfl (by decide) (by decide)
  exact ⟨h1, h3, h7⟩

/-- C5 counterexample: an expired interval with score at the threshold
is rotated by the expiry check (start time, score and violations all
reset), so the check does take action there, contrary to the claim. -/
theorem c5_counterexample :
    FLAG_THRESHOLD ≤ sHotNoRec.interval_score
  ∧ sHotNoRec.interval_start_time = some 0
  ∧ interval_expiry_check 30 sHotNoRec ≠ sHotNoRec
  ∧ (interval_expiry_check 30 sHotNoRec).interval_score = 0
  ∧ (interval_expiry_check 30 sHotNoRec).interval_violations = []
  ∧ (interval_expiry_check 30 sHotNoRec).interval_start_time = some 30
  ∧ (interval_expiry_check 30 sHotNoRec).flags = [] := by
  decide

/-- C6 (amended): report generation mutates no state, and two
computations over the same logs agree on every field except the
generated-at timestamp, which records the wall-clock time of the call
and differs between calls (see the counterexample). -/
theorem c6_report_pure_core_idempotent (s : ScoreState) (t1 t2 : Nat) :
    reportCore (generate_report t1 s).1 = reportCore (generate_report t2 s).1
  ∧ (generate_report t1 s).2 = s :=
  ⟨rfl, rfl⟩

/-- C6 counterexample: two report computations over identical logs
differ, because each embeds its own wall-clock timestamp. -/
theorem c6_counterexample :
    (generate_report 0 initState).1 ≠ (generate_report 1 initState).1
  ∧ (generate_report 0 initState).1.timestamp ≠ (generate_report 1 initState).1.timestamp := by
  decide

/-- C7 (amended): a frame post whose session id matches no active
session gets the Session-not-found error body with the session table
unchanged, and a frame post to a monitor whose is_running flag is
already false gets the success-shaped Session-ending body, again with
no state change; there is no distinct SessionClosed error condition
(see the counterexample). -/
theorem c7_session_lookup_responses (sessions : Sessions) (sid : String)
    (inp : FrameInput) (now freshFile : Nat)
    (hframe : inp.hasFrame = true) :
    (sessions.find? (fun kv => kv.2.session_id == sid) = none →
      receive_frame sessions sid inp now freshFile = (.sessionNotFound, sessions)
      ∧ FrameResponse.isError .sessionNotFound = true)
  ∧ (∀ key mon, sessions.find? (fun kv => kv.2.session_id == sid) = some (key, mon) →
      mon.is_running = false →
      receive_frame sessions sid inp now freshFile = (.sessionEnding, sessions)
      ∧ FrameResponse.isError .sessionEnding = false) := by
  constructor
  · intro hfind
    unfold receive_frame
    simp only [hframe, Bool.not_true, Bool.false_eq_true, if_false, hfind]
    exact ⟨trivial, rfl⟩
  · intro key mon hfind hrun
    unfold receive_frame
    simp only [hframe, Bool.not_true, Bool.false_eq_true, if_false, hfind, hrun,
               Bool.not_false, if_true]
    exact ⟨trivial, rfl⟩

/-- Witness for C7: a frame for an unknown session id on an empty
session table. -/
theorem c7_session_lookup_responses_witness :
    receive_frame [] "sidA" inpA 0 0 = (.sessionNotFound, [])
  ∧ FrameResponse.isError .sessionNotFound = true :=
  (c7_session_lookup_responses [] "sidA" inpA 0 0 rfl).1 rfl

/-- C7 counterexample: after end_session removes the session, a frame
for it yields the same Session-not-found condition as an unknown id,
and a stopped monitor yields a success body, so no distinct
SessionClosed error condition exists. -/
theorem c7_counterexample :
    (end_session [("u_e", monA)] "u" "e").2 = []
  ∧ receive_frame (end_session [("u_e", monA)] "u" "e").2 "sidA" inpA 0 0
      = (.sessionNotFound, [])
  ∧ receive_frame [("u_e", monStopped)] "sidA" inpA 0 0
      = (.sessionEnding, [("u_e", monStopped)])
  ∧ FrameResponse.isError .sessionEnding = false := by
  decide

/-- C8: the derived severity is high for at least 9 points, medium
from 4 up to 8 points, and low below 4 points. -/
theorem c8_severity_banding (p : Nat) :
    (p ≥ 9 → _get_severity p = "high")
  ∧ (4 ≤ p ∧ p < 9 → _get_severity p = "medium")
  ∧ (p < 4 → _get_severity p = "low") := by
  unfold _get_severity
  refine ⟨fun h => ?_, fun h => ?_, fun h => ?_⟩
  · rw [if_pos h]
  · rw [if_neg (by omega), if_pos (by omega)]
  · rw [if_neg (by omega), if_neg (by omega)]

/-- Witness for C8 at one point per band. -/
theorem c8_severity_banding_witness :
    _get_severity 9 = "high" ∧ _get_severity 4 = "medium" ∧ _get_severity 0 = "low" :=
  ⟨(c8_severity_banding 9).1 (by decide),
   (c8_severity_banding 4).2.1 (by decide),
   (c8_severity_banding 0).2.2 (by decide)⟩

/-- C9: reset_score zeroes both scores, clears both violation logs,
the flags and the interval start time, and leaves every recording
field (writer handle, recording flag, temporary file, disk contents)
exactly as it was, so an open recording stays open across a reset. -/
theorem c9_reset_scope (s : ScoreState) :
    (reset_score s).total_score = 0
  ∧ (reset_score s).all_violations = []
  ∧ (reset_score s).interval_score = 0
  ∧ (reset_score s).interval_violations = []
  ∧ (reset_score s).interval_start_time = none
  ∧ (reset_score s).flags = []
  ∧ (reset_score s).video_writer = s.video_writer
  ∧ (reset_score s).is_recording = s.is_recording
  ∧ (reset_score s).temp_video_file = s.temp_video_file
  ∧ (reset_score s).fs = s.fs :=
  ⟨rfl, rfl, rfl, rfl, rfl, rfl, rfl, rfl, rfl, rfl⟩

/-- C10: the face detector never reports multiple faces and no face
for the same frame (the first holds exactly when the count exceeds
one, the second exactly when it is zero), and accordingly one
analyze_faces call never adds both a multiple-faces violation and a
no-face violation to the session log. -/
theorem c10_face_flags_exclusive (n now : Nat) (s : ScoreState) :
    ((detect_faces n).multiple_faces = true ↔ n > 1)
  ∧ ((detect_faces n).no_face = true ↔ n = 0)
  ∧ ¬((detect_faces n).multiple_faces = true ∧ (detect_faces n).no_face = true)
  ∧ ((analyze_faces n now s).all_violations.countP
        (fun v => v.type == VKind.multiple_faces)
      = s.all_violations.countP (fun v => v.type == VKind.multiple_faces)
    ∨ (analyze_faces n now s).all_violations.countP
        (fun v => v.type == VKind.no_face)
      = s.all_violations.countP (fun v => v.type == VKind.no_face)) := by
  refine ⟨by simp [detect_faces], by simp [detect_faces], ?_, ?_⟩
  · simp [detect_faces]; omega
  · have hall : (analyze_faces n now s).all_violations
        = (ingest (.faces n) now s).all_violations := rfl
    rw [hall, ingest_eq]
    have hflag := check_flag_keeps_session_log now (applySignal (.faces n) s)
    by_cases h0 : n = 0
    · left
      rw [if_pos (show runsFlagCheck (Signal.faces n) = true from rfl), hflag.1]
      show ((s.all_violations ++ signalViolations (.faces n)).countP _) = _
      simp [signalViolations, h0, List.countP_append]
    · right
      rw [if_pos (show runsFlagCheck (Signal.faces n) = true from rfl), hflag.1]
      show ((s.all_violations ++ signalViolations (.faces n)).countP _) = _
      rcases Nat.lt_or_ge 1 n with h1 | h1
      · simp [signalViolations, h0, h1, List.countP_append]
      · simp [signalViolations, h0, Nat.not_lt.mpr h1, List.countP_append]

/-- Witness for C10 at a two-face frame. -/
theorem c10_face_flags_exclusive_witness :
    (detect_faces 2).multiple_faces = true :=
  (c10_face_flags_exclusive 2 0 initState).1.mpr (by decide)

end Proctor
